import Mathlib

/-!
# Verification of the IndiFocuser stepper-focuser driver

A shallow embedding of `FocuserRob` (the INDI focuser driver for the
TB6612FNG-based stepper focuser).  The mutable driver object (the INDI
number vectors `FocusSpeedN`, `FocusAbsPosN`, `FocusRelPosN`, the private
globals `gTicksRequired`, `gTicksElapsed`, `gPollTimerMs`,
`gDirectionIsOutward`, and the four GPIO output lines of the TB6612FNG)
is modelled as an explicit state record `FState`; each member function of
`FocuserRob` becomes a Lean function from states to (result, state) pairs.

Machine-integer conversions that matter (the `uint32_t` cast in
`FocuserRob::move` and `MoveRelFocuser`, the `uint32 -> int32` parameter
conversion in the call to `setVariablesAfterMove` from `AbortFocuser`)
are modelled with explicit `% 2^32` arithmetic.  `double` fields
(`FocusAbsPosN[0].value`, `FocusSpeedN[0].value`, `FocusRelPosN[0].value`)
only ever hold integral values well inside the exact range of `double`,
so they are modelled as `Int`.
-/

namespace IndiFocuser

/-- INDI property/return state (`IPState`): `IPS_IDLE`, `IPS_OK`,
`IPS_BUSY`, `IPS_ALERT`. -/
inductive IPS where
  | Idle
  | Ok
  | Busy
  | Alert
deriving DecidableEq, Repr

/-- INDI focus direction: `FOCUS_INWARD` / `FOCUS_OUTWARD`. -/
inductive FocusDirection where
  | Inward
  | Outward
deriving DecidableEq, Repr

/-- The user-visible notifications the driver emits via `IDMessage` /
`IDSetNumber` with a non-null message, identified by which call site
produced them. -/
inductive Msg where
  | movingToPosition
  | cannotSetSpeedWhileMoving
  | speedOutOfRange
  | speedSet
  | positionOutOfRange
deriving DecidableEq, Repr

/-- The driver state: INDI number values, the private globals of
`focuser_rob.cpp`, the four TB6612FNG GPIO lines (`true` = HIGH), the
armed poll timer, the INDI property states, a monotone count of step
pulses issued on the PWM line (`oneTick` calls), and the list of
notifications emitted so far. -/
structure FState where
  /-- `FocusAbsPosN[0].value` — absolute position in ticks. -/
  position : Int
  /-- `FocusRelPosN[0].value` — last signed relative delta. -/
  lastRelativeDelta : Int
  /-- `FocusSpeedN[0].value` — configured speed in ticks per second. -/
  speed : Int
  /-- `gTicksRequired` (`uint32_t`). -/
  ticksRequired : Nat
  /-- `gTicksElapsed` (`uint32_t`). -/
  ticksElapsed : Nat
  /-- `gPollTimerMs` (`uint16_t`). -/
  pollTimerMs : Nat
  /-- `gDirectionIsOutward`. -/
  directionIsOutward : Bool
  /-- GPIO `IN1_TB6612FNG`. -/
  in1 : Bool
  /-- GPIO `IN2_TB6612FNG`. -/
  in2 : Bool
  /-- GPIO `PWM_TB6612FNG`. -/
  pwm : Bool
  /-- GPIO `STBY_TB6612FNG` (LOW = standby). -/
  stby : Bool
  /-- The pending `SetTimer` request, if any. -/
  timerArmed : Option Nat
  /-- `FocusTimerNP.s`. -/
  timerS : IPS
  /-- `FocusAbsPosNP.s`. -/
  absS : IPS
  /-- `FocusRelPosNP.s`. -/
  relS : IPS
  /-- `FocusSpeedNP.s`. -/
  speedS : IPS
  /-- Monotone count of step pulses issued (`oneTick` calls). -/
  pulses : Nat
  /-- Notifications emitted so far. -/
  msgs : List Msg
deriving DecidableEq, Repr

/-- `FocusSpeedN[0].min` (set in `initProperties`). -/
def speedMin : Int := 1

/-- `FocusSpeedN[0].max` (set in `initProperties`). -/
def speedMax : Int := 255

/-- `FocusAbsPosN[0].min` (set in `initProperties`). -/
def posMin : Int := 0

/-- `FocusAbsPosN[0].max` (set in `initProperties`). -/
def posMax : Int := 60000

/-- `MIN_POLL_TIMER_MS` — the minimum schedulable poll-timer granularity. -/
def MIN_POLL_TIMER_MS : Nat := 10

/-- `2^32`, the modulus of `uint32_t` arithmetic. -/
def u32 : Nat := 4294967296

/-- Conversion of a signed integer value to `uint32_t` (C++ wraps
modulo `2^32`). -/
def toU32 (i : Int) : Nat := (i % (4294967296 : Int)).toNat

/-- Reinterpretation of a `uint32_t` value as `int32_t` (two's
complement), as happens when `gTicksRequired - gTicksElapsed` is passed
to the `int32_t` parameter of `setVariablesAfterMove`. -/
def toI32 (n : Nat) : Int :=
  if n % 4294967296 < 2147483648 then (n % 4294967296 : Int)
  else (n % 4294967296 : Int) - 4294967296

/-- `FocuserRob::oneTick`: raise the PWM line, hold, lower it.  The net
state change is a low PWM line and one more pulse issued. -/
def oneTick (s : FState) : FState :=
  { s with pwm := false, pulses := s.pulses + 1 }

/-- `FocuserRob::setDirection`: record the direction flag and set the
IN1/IN2 lines (counter-clockwise for outward, clockwise for inward). -/
def setDirection (isOutward : Bool) (s : FState) : FState :=
  if isOutward then
    { s with directionIsOutward := true, in1 := false, in2 := true }
  else
    { s with directionIsOutward := false, in1 := true, in2 := false }

/-- `FocuserRob::setStop`: PWM low, IN1 low, IN2 low, then PWM high. -/
def setStop (s : FState) : FState :=
  { s with in1 := false, in2 := false, pwm := true }

/-- `FocuserRob::setStandby`: drive the STBY line LOW to enter standby,
HIGH to leave it. -/
def setStandby (isOn : Bool) (s : FState) : FState :=
  { s with stby := !isOn }

/-- `FocuserRob::setVariablesAfterMove`: negate `relativeTicks` if the
current direction is outward, add it to the absolute position and record
it as the relative delta. -/
def setVariablesAfterMove (relativeTicks : Int) (s : FState) : FState :=
  let rt := if s.directionIsOutward then -relativeTicks else relativeTicks
  { s with position := s.position + rt, lastRelativeDelta := rt }

/-- `FocuserRob::AbortFocuser`: stop the motor and enter standby; if a
move was in progress (`gTicksRequired > 0`), call
`setVariablesAfterMove(gTicksRequired - gTicksElapsed)` (a `uint32_t`
subtraction passed to an `int32_t` parameter) and clear
`gTicksRequired`; set the three property states to `IPS_IDLE`; return
`true`. -/
def AbortFocuser (s : FState) : Bool × FState :=
  let s1 := setStandby true (setStop s)
  let s2 :=
    if s1.ticksRequired > 0 then
      let s' := setVariablesAfterMove
        (toI32 ((u32 + s1.ticksRequired - s1.ticksElapsed) % u32)) s1
      { s' with ticksRequired := 0 }
    else s1
  (true, { s2 with timerS := IPS.Idle, absS := IPS.Idle, relS := IPS.Idle })

/-- `FocuserRob::move`: the move-execution algorithm.  `delayMs` is the
inter-step delay `1000 / FocusSpeedN[0].value` truncated to `uint16_t`;
an in-flight move is aborted first; the direction lines are set from the
sign of `relativeTicks` and the tick count is made absolute; the driver
leaves standby; then either the whole move is done synchronously in a
pulse loop (`delayMs < MIN_POLL_TIMER_MS`) or a poll-timer session is
started with one pulse issued immediately. -/
def move (relativeTicks : Int) (s : FState) : IPS × FState :=
  let delayMs : Nat := 1000 / s.speed.toNat
  let s1 := if s.ticksRequired ≠ 0 then (AbortFocuser s).2 else s
  let s2 := { s1 with msgs := s1.msgs ++ [Msg.movingToPosition] }
  let s3 := setDirection (decide (relativeTicks < 0)) s2
  let rt := if s3.directionIsOutward then -relativeTicks else relativeTicks
  let s4 := setStandby false s3
  if delayMs < MIN_POLL_TIMER_MS then
    let s5 := if 0 < rt then { s4 with pwm := false, pulses := s4.pulses + rt.toNat }
              else s4
    let s6 := setStandby true (setStop s5)
    let s7 := setVariablesAfterMove rt s6
    (IPS.Ok, s7)
  else
    let s5 := { s4 with pollTimerMs := delayMs, ticksRequired := toU32 rt,
                        timerArmed := some delayMs }
    let s6 := oneTick s5
    (IPS.Busy, { s6 with ticksElapsed := 1 })

/-- `FocuserRob::TimerHit`: when connected and a session is active,
either re-arm the timer, issue one pulse and increment `gTicksElapsed`
(when `gTicksElapsed < gTicksRequired`), or finish via `AbortFocuser`. -/
def TimerHit (connected : Bool) (s : FState) : FState :=
  if connected then
    if s.ticksRequired > 0 then
      if s.ticksElapsed < s.ticksRequired then
        let s1 := { s with timerArmed := some s.pollTimerMs }
        let s2 := oneTick s1
        { s2 with ticksElapsed := s2.ticksElapsed + 1 }
      else (AbortFocuser s).2
    else s
  else s

/-- `FocuserRob::SetFocuserSpeed`: accept silently if the requested
speed equals the current one; otherwise reject while any of the timer /
absolute / relative properties is busy, reject out-of-range speeds, and
otherwise store the new speed. -/
def SetFocuserSpeed (speed : Int) (s : FState) : Bool × FState :=
  if speed ≠ s.speed then
    if s.timerS = IPS.Busy ∨ s.absS = IPS.Busy ∨ s.relS = IPS.Busy then
      (false, { s with msgs := s.msgs ++ [Msg.cannotSetSpeedWhileMoving] })
    else if speed < speedMin ∨ speed > speedMax then
      (false, { s with msgs := s.msgs ++ [Msg.speedOutOfRange] })
    else
      (true, { s with speed := speed, speedS := IPS.Ok,
                      msgs := s.msgs ++ [Msg.speedSet] })
  else (true, s)

/-- `FocuserRob::MoveFocuser`: set the speed; on success compute
`relativeTicks = (speed * duration) / 1000` (`int` arithmetic, truncated
division), apply the direction (the code executes
`relativeTicks -= relativeTicks` for `FOCUS_OUTWARD`, exactly as
written), bounds-check the planned absolute position and delegate to
`move`. -/
def MoveFocuser (dir : FocusDirection) (speed : Int) (duration : Nat)
    (s : FState) : IPS × FState :=
  let r := SetFocuserSpeed speed s
  if r.1 then
    let s1 := r.2
    let relativeTicks0 : Int := Int.tdiv (speed * (duration : Int)) 1000
    let relativeTicks : Int :=
      if dir = FocusDirection.Outward then relativeTicks0 - relativeTicks0
      else relativeTicks0
    let plannedAbsPos : Int := s1.position + relativeTicks
    if plannedAbsPos < posMin ∨ plannedAbsPos > posMax then
      (IPS.Alert, { s1 with msgs := s1.msgs ++ [Msg.positionOutOfRange] })
    else
      move relativeTicks s1
  else (IPS.Alert, r.2)

/-- `FocuserRob::MoveAbsFocuser`: if the target differs from the current
position, bounds-check it and delegate to `move` with the signed
difference; if the target equals the position the initial
`returnState = IPS_ALERT` is returned with no other action. -/
def MoveAbsFocuser (targetTicks : Nat) (s : FState) : IPS × FState :=
  if (targetTicks : Int) ≠ s.position then
    if (targetTicks : Int) < posMin ∨ (targetTicks : Int) > posMax then
      (IPS.Alert, { s with msgs := s.msgs ++ [Msg.positionOutOfRange] })
    else
      move ((targetTicks : Int) - s.position) s
  else (IPS.Alert, s)

/-- `FocuserRob::MoveRelFocuser`: compute
`targetTicks = FocusAbsPosN[0].value + ticks * (dir == FOCUS_INWARD ? -1 : 1)`
— the multiplication is done in `uint32_t` arithmetic (`-1` converts to
`2^32 - 1`), the addition in `double`, and the result converts back to
`uint32_t` — then delegate to `MoveAbsFocuser`. -/
def MoveRelFocuser (dir : FocusDirection) (ticks : Nat) (s : FState) :
    IPS × FState :=
  let mult : Nat := ((ticks % u32) * (if dir = FocusDirection.Inward then u32 - 1 else 1)) % u32
  let targetTicks : Nat := toU32 (s.position + (mult : Int))
  MoveAbsFocuser targetTicks s

/-- The state after the `FocuserRob` constructor (stop + standby, all
counters zero) and `initProperties` (speed 100 in `[1, 255]`, position
at the midpoint 30000 of `[0, 60000]`, relative delta 0). -/
def initState : FState where
  position := 30000
  lastRelativeDelta := 0
  speed := 100
  ticksRequired := 0
  ticksElapsed := 0
  pollTimerMs := 0
  directionIsOutward := false
  in1 := false
  in2 := false
  pwm := true
  stby := false
  timerArmed := none
  timerS := IPS.Idle
  absS := IPS.Idle
  relS := IPS.Idle
  speedS := IPS.Idle
  pulses := 0
  msgs := []

/-! ## A concrete run used by several witnesses

Starting from the initial state: set the speed to 1 tick/sec (inter-step
delay 1000 ms, so the move is scheduled on the poll timer), request a
relative move of 5 ticks inward, then deliver two timer callbacks, so
that 3 of the 5 requested ticks have been issued. -/

/-- The initial state after `SetFocuserSpeed(1)`. -/
def runSlow : FState := (SetFocuserSpeed 1 initState).2

/-- `runSlow` after `MoveRelFocuser(FOCUS_INWARD, 5)`: an active session
with `gTicksRequired = 5`, `gTicksElapsed = 1`. -/
def runSession : FState := (MoveRelFocuser FocusDirection.Inward 5 runSlow).2

/-- `runSession` after two `TimerHit` callbacks while connected:
`gTicksElapsed = 3`. -/
def runSession3 : FState := TimerHit true (TimerHit true runSession)

/-- The initial state after `SetFocuserSpeed(200)`: inter-step delay
`1000 / 200 = 5 < MIN_POLL_TIMER_MS`, so moves run synchronously. -/
def runFast : FState := (SetFocuserSpeed 200 initState).2

/-- A reachable state away from the midpoint: after setting speed 200,
a synchronous absolute move to 55000. -/
def runFar : FState := (MoveAbsFocuser 55000 runFast).2

/-! ## Reachability

One step of the driver: any public request (`SetFocuserSpeed`,
`MoveFocuser`, `MoveAbsFocuser`, `MoveRelFocuser`, `AbortFocuser`), a
timer callback (connected or not), or the INDI framework updating the
four property states (the framework sets e.g. `FocusAbsPosNP.s` from the
value returned by a move request; the driver itself only reads these
flags and resets them to `IPS_IDLE` in `AbortFocuser`). -/
inductive Step : FState → FState → Prop where
  | setSpeed (v : Int) (s : FState) : Step s (SetFocuserSpeed v s).2
  | moveTimed (dir : FocusDirection) (v : Int) (d : Nat) (s : FState) :
      Step s (MoveFocuser dir v d s).2
  | moveAbs (t : Nat) (s : FState) : Step s (MoveAbsFocuser t s).2
  | moveRel (dir : FocusDirection) (t : Nat) (s : FState) :
      Step s (MoveRelFocuser dir t s).2
  | timer (c : Bool) (s : FState) : Step s (TimerHit c s)
  | abort (s : FState) : Step s (AbortFocuser s).2
  | frameworkFlags (t a r sp : IPS) (s : FState) :
      Step s { s with timerS := t, absS := a, relS := r, speedS := sp }

/-- States reachable from the initial state through the public
operations. -/
inductive Reachable : FState → Prop where
  | init : Reachable initState
  | step {s s' : FState} : Reachable s → Step s s' → Reachable s'

/-- The state invariant maintained by every operation: the configured
speed stays within `[speedMin, speedMax]` (in particular it is never
zero, so the division `1000 / speed` in `move` always has a nonzero
divisor), and whenever a move session is active
(`gTicksRequired > 0`) the issued tick count never exceeds the
requested one. -/
def Inv (s : FState) : Prop :=
  speedMin ≤ s.speed ∧ s.speed ≤ speedMax ∧
  (0 < s.ticksRequired → s.ticksElapsed ≤ s.ticksRequired)

/-- Helper: `MoveAbsFocuser` with the target equal to the current
position takes neither branch of the body and returns the initial
`returnState = IPS_ALERT` with the state untouched. -/
lemma moveAbs_target_eq_position (s : FState) (t : Nat)
    (h : (t : Int) = s.position) : MoveAbsFocuser t s = (IPS.Alert, s) := by
  simp [MoveAbsFocuser, h]

/-- **C1** (the claim is the spec's intent; the code diverges).  On the
reachable run `runSession3` — 3 of 5 requested inward ticks issued —
`AbortFocuser` calls `setVariablesAfterMove(gTicksRequired -
gTicksElapsed)`, i.e. the ticks *remaining* (2), not the ticks *elapsed*
(3) as its own comment ("how far we got") and the spec state: the
position moves by 2, not 3, and the recorded relative delta is 2 in
magnitude, not 3. -/
theorem abort_applies_remaining_not_elapsed :
    runSession3.ticksRequired = 5 ∧
    runSession3.ticksElapsed = 3 ∧
    runSession3.position = 30000 ∧
    (AbortFocuser runSession3).2.position = 29998 ∧
    (AbortFocuser runSession3).2.lastRelativeDelta = -2 ∧
    ((AbortFocuser runSession3).2.position - runSession3.position).natAbs ≠
      runSession3.ticksElapsed := by
  decide

/-- **C2** (the claim is the spec's intent; the code diverges).  For
`MoveFocuser(FOCUS_OUTWARD, 100, 1000)` from the initial state the
planned magnitude is `floor(100 * 1000 / 1000) = 100`, so the claim
requires an outward move of 100 ticks; but the code's
`relativeTicks -= relativeTicks` zeroes the count instead of negating
it: the call returns `IPS_BUSY` with no session created
(`gTicksRequired = 0`) and the position is never changed. -/
theorem moveFocuser_outward_zeroes_ticks :
    Int.tdiv (100 * 1000) 1000 = 100 ∧
    (MoveFocuser FocusDirection.Outward 100 1000 initState).1 = IPS.Busy ∧
    (MoveFocuser FocusDirection.Outward 100 1000 initState).2.position =
      initState.position ∧
    (MoveFocuser FocusDirection.Outward 100 1000 initState).2.ticksRequired
      = 0 ∧
    (MoveFocuser FocusDirection.Outward 100 1000 initState).2.lastRelativeDelta
      = initState.lastRelativeDelta := by
  decide

/-- **C3, counterexample**: from the initial state (position 30000),
`MoveAbsFocuser(30000)` returns `IPS_ALERT`, not a success (OK) status,
refuting the claim that the no-op case returns OK. -/
theorem moveAbs_noop_returns_alert :
    initState.position = 30000 ∧
    (MoveAbsFocuser 30000 initState).1 = IPS.Alert ∧
    (MoveAbsFocuser 30000 initState).1 ≠ IPS.Ok := by
  decide

/-- **C3, amended**: `MoveAbsFocuser(targetTicks)` with `targetTicks`
equal to the current absolute position is a no-op — the position, the
relative delta and the whole driver state are unchanged — but it
returns `IPS_ALERT`, not OK. -/
theorem moveAbs_noop_alert (s : FState) (t : Nat)
    (h : (t : Int) = s.position) :
    (MoveAbsFocuser t s).1 = IPS.Alert ∧ (MoveAbsFocuser t s).2 = s := by
  rw [moveAbs_target_eq_position s t h]
  exact ⟨rfl, rfl⟩

/-- Witness for `moveAbs_noop_alert` at `targetTicks = 30000` from the
initial state. -/
theorem moveAbs_noop_alert_holds :
    ((30000 : Nat) : Int) = initState.position ∧
    (MoveAbsFocuser 30000 initState).1 = IPS.Alert ∧
    (MoveAbsFocuser 30000 initState).2 = initState :=
  ⟨by decide, moveAbs_noop_alert initState 30000 (by decide)⟩

/-- **C6**: `AbortFocuser` always succeeds (returns `true`); running it
twice in a row yields exactly the same state as running it once; and
when no session is active and the driver is already idle (stopped, in
standby, property states IDLE) it is a complete no-op. -/
theorem abort_idempotent (s : FState) :
    (AbortFocuser s).1 = true ∧
    (AbortFocuser (AbortFocuser s).2).2 = (AbortFocuser s).2 ∧
    (s.ticksRequired = 0 ∧ s.in1 = false ∧ s.in2 = false ∧ s.pwm = true ∧
      s.stby = false ∧ s.timerS = IPS.Idle ∧ s.absS = IPS.Idle ∧
      s.relS = IPS.Idle →
      AbortFocuser s = (true, s)) := by
  refine ⟨rfl, ?_, ?_⟩
  · simp only [AbortFocuser, setStop, setStandby, setVariablesAfterMove]
    split <;> simp
  · rintro ⟨h1, h2, h3, h4, h5, h6, h7, h8⟩
    cases s
    simp_all [AbortFocuser, setStop, setStandby, setVariablesAfterMove]

/-- Witness for `abort_idempotent`: the initial state is idle, so
`AbortFocuser` leaves it exactly as it is. -/
theorem abort_idempotent_holds :
    AbortFocuser initState = (true, initState) ∧
    (AbortFocuser (AbortFocuser initState).2).2 = (AbortFocuser initState).2 := by
  have h := abort_idempotent initState
  exact ⟨h.2.2 (by decide), h.2.1⟩

/-- **C7**: a request to change the speed to a different value while any
of the timer / absolute-position / relative-position properties is
`IPS_BUSY` is rejected (`SetFocuserSpeed` returns `false`), emits the
"Can't set the speed while the motor is running" notification, and
leaves the configured speed untouched. -/
theorem setSpeed_rejected_while_busy (s : FState) (speed : Int)
    (hne : speed ≠ s.speed)
    (hb : s.timerS = IPS.Busy ∨ s.absS = IPS.Busy ∨ s.relS = IPS.Busy) :
    (SetFocuserSpeed speed s).1 = false ∧
    (SetFocuserSpeed speed s).2.speed = s.speed ∧
    (SetFocuserSpeed speed s).2.msgs =
      s.msgs ++ [Msg.cannotSetSpeedWhileMoving] := by
  simp [SetFocuserSpeed, hne, hb]

/-- Witness for `setSpeed_rejected_while_busy`: a speed change to 50
while the absolute-position property is busy. -/
theorem setSpeed_rejected_while_busy_holds :
    (SetFocuserSpeed 50 { initState with absS := IPS.Busy }).1 = false ∧
    (SetFocuserSpeed 50 { initState with absS := IPS.Busy }).2.speed =
      ({ initState with absS := IPS.Busy } : FState).speed ∧
    (SetFocuserSpeed 50 { initState with absS := IPS.Busy }).2.msgs =
      ({ initState with absS := IPS.Busy } : FState).msgs ++
        [Msg.cannotSetSpeedWhileMoving] :=
  setSpeed_rejected_while_busy { initState with absS := IPS.Busy } 50
    (by decide) (by decide)

/-- Helper: `MoveAbsFocuser` with a target different from the current
position and outside `[posMin, posMax]` rejects the request with the
out-of-range notification and no other state change. -/
lemma moveAbs_out_of_range (s : FState) (t : Nat)
    (h1 : (t : Int) ≠ s.position)
    (h2 : (t : Int) < posMin ∨ (t : Int) > posMax) :
    MoveAbsFocuser t s =
      (IPS.Alert, { s with msgs := s.msgs ++ [Msg.positionOutOfRange] }) := by
  unfold MoveAbsFocuser
  rw [if_pos h1, if_pos h2]

/-- **C10**: an inward relative move of more ticks than the current
position (with `ticks` below `2^32 - 60000`) computes its target in
`uint32_t` arithmetic, which wraps to
`position + 2^32 - ticks > posMax`; the request is therefore rejected
with `IPS_ALERT` and the position, relative delta and standby line are
unchanged — the position is never driven below the minimum bound. -/
theorem moveRel_inward_wrap_rejected (s : FState) (ticks : Nat)
    (hp0 : 0 ≤ s.position) (hpm : s.position ≤ posMax)
    (hgt : s.position < (ticks : Int))
    (hub : (ticks : Int) < 4294967296 - 60000) :
    posMax <
      (toU32 (s.position + (((ticks % u32) * (u32 - 1)) % u32 : Nat)) : Int) ∧
    (MoveRelFocuser FocusDirection.Inward ticks s).1 = IPS.Alert ∧
    (MoveRelFocuser FocusDirection.Inward ticks s).2.position = s.position ∧
    (MoveRelFocuser FocusDirection.Inward ticks s).2.lastRelativeDelta =
      s.lastRelativeDelta ∧
    (MoveRelFocuser FocusDirection.Inward ticks s).2.stby = s.stby := by
  have ht32 : ticks < 4294967296 := by omega
  have ht0 : 0 < ticks := by omega
  have hmult : ((ticks % u32) * (u32 - 1)) % u32 = u32 - ticks := by
    unfold u32
    omega
  have hval : (toU32 (s.position + ((u32 - ticks : Nat) : Int)) : Int) =
      s.position + ((u32 - ticks : Nat) : Int) := by
    unfold toU32 u32
    omega
  have htgt : posMax <
      (toU32 (s.position + ((u32 - ticks : Nat) : Int)) : Int) := by
    rw [hval]
    unfold posMax
    unfold posMax at hpm
    unfold u32
    omega
  have hne : (toU32 (s.position + ((u32 - ticks : Nat) : Int)) : Int) ≠
      s.position := by
    unfold posMax at htgt hpm
    omega
  have habs := moveAbs_out_of_range s
    (toU32 (s.position + ((u32 - ticks : Nat) : Int))) hne (Or.inr htgt)
  have hmrel : MoveRelFocuser FocusDirection.Inward ticks s =
      MoveAbsFocuser
        (toU32 (s.position + ((((ticks % u32) * (u32 - 1)) % u32 : Nat) : Int)))
        s := rfl
  rw [hmult] at hmrel
  rw [hmult, hmrel, habs]
  exact ⟨htgt, rfl, rfl, rfl, rfl⟩

/-- Witness for `moveRel_inward_wrap_rejected`: an inward relative move
of 40000 ticks from position 30000. -/
theorem moveRel_inward_wrap_rejected_holds :
    (MoveRelFocuser FocusDirection.Inward 40000 initState).1 = IPS.Alert ∧
    (MoveRelFocuser FocusDirection.Inward 40000 initState).2.position =
      initState.position :=
  have h := moveRel_inward_wrap_rejected initState 40000 (by decide)
    (by decide) (by decide) (by decide)
  ⟨h.2.1, h.2.2.1⟩



lemma abort_speed (s : FState) : (AbortFocuser s).2.speed = s.speed := by
  simp only [AbortFocuser, setStop, setStandby, setVariablesAfterMove]
  split <;> rfl

lemma abort_required (s : FState) : (AbortFocuser s).2.ticksRequired = 0 := by
  simp only [AbortFocuser, setStop, setStandby, setVariablesAfterMove]
  split
  · rfl
  · rename_i h
    simp only [gt_iff_lt, not_lt, Nat.le_zero] at h
    exact h

lemma inv_abort {s : FState} (h : Inv s) : Inv (AbortFocuser s).2 := by
  refine ⟨?_, ?_, ?_⟩
  · rw [abort_speed]; exact h.1
  · rw [abort_speed]; exact h.2.1
  · rw [abort_required]; omega

lemma abort_elapsed (s : FState) :
    (AbortFocuser s).2.ticksElapsed = s.ticksElapsed := by
  simp only [AbortFocuser, setStop, setStandby, setVariablesAfterMove]
  split <;> rfl

lemma move_speed (rt : Int) (s : FState) : (move rt s).2.speed = s.speed := by
  simp only [move]
  split_ifs <;>
    simp [setDirection, setStop, setStandby, setVariablesAfterMove, oneTick,
      apply_ite, abort_speed]

lemma move_session (rt : Int) (s : FState) :
    (move rt s).2.ticksRequired = 0 ∨ (move rt s).2.ticksElapsed = 1 := by
  simp only [move]
  split_ifs <;>
    first
      | (left
         simp [setDirection, setStop, setStandby, setVariablesAfterMove,
           oneTick, apply_ite, abort_required] <;> omega
        )
      | (right
         simp [setDirection, setStop, setStandby, setVariablesAfterMove,
           oneTick, apply_ite])

lemma inv_move {s : FState} (rt : Int) (h : Inv s) : Inv (move rt s).2 := by
  refine ⟨?_, ?_, ?_⟩
  · rw [move_speed]; exact h.1
  · rw [move_speed]; exact h.2.1
  · rcases move_session rt s with h0 | h1
    · omega
    · omega

lemma sfs_fields (v : Int) (s : FState) :
    (SetFocuserSpeed v s).2.ticksRequired = s.ticksRequired ∧
    (SetFocuserSpeed v s).2.ticksElapsed = s.ticksElapsed ∧
    (SetFocuserSpeed v s).2.position = s.position ∧
    (SetFocuserSpeed v s).2.lastRelativeDelta = s.lastRelativeDelta ∧
    (SetFocuserSpeed v s).2.stby = s.stby := by
  unfold SetFocuserSpeed
  split
  · split
    · exact ⟨rfl, rfl, rfl, rfl, rfl⟩
    · split <;> exact ⟨rfl, rfl, rfl, rfl, rfl⟩
  · exact ⟨rfl, rfl, rfl, rfl, rfl⟩

lemma sfs_speed_bounds (v : Int) (s : FState)
    (h : speedMin ≤ s.speed ∧ s.speed ≤ speedMax) :
    speedMin ≤ (SetFocuserSpeed v s).2.speed ∧
    (SetFocuserSpeed v s).2.speed ≤ speedMax := by
  unfold SetFocuserSpeed
  split
  · split
    · exact h
    · split
      · exact h
      · rename_i hrange
        simp only [not_or, not_lt] at hrange
        exact hrange
  · exact h

lemma inv_sfs {s : FState} (v : Int) (h : Inv s) :
    Inv (SetFocuserSpeed v s).2 := by
  obtain ⟨h1, h2, h3, h4, h5⟩ := sfs_fields v s
  obtain ⟨hb1, hb2⟩ := sfs_speed_bounds v s ⟨h.1, h.2.1⟩
  exact ⟨hb1, hb2, by rw [h1, h2]; exact h.2.2⟩

lemma inv_timer {s : FState} (c : Bool) (h : Inv s) : Inv (TimerHit c s) := by
  unfold TimerHit
  split
  · split
    · split
      · exact ⟨h.1, h.2.1, by simp [oneTick]; omega⟩
      · exact inv_abort h
    · exact h
  · exact h

lemma inv_moveFocuser {s : FState} (dir : FocusDirection) (v : Int) (d : Nat)
    (h : Inv s) : Inv (MoveFocuser dir v d s).2 := by
  simp only [MoveFocuser]
  split_ifs <;>
    first
      | exact inv_move _ (inv_sfs v h)
      | exact inv_sfs v h

lemma inv_moveAbs {s : FState} (t : Nat) (h : Inv s) :
    Inv (MoveAbsFocuser t s).2 := by
  unfold MoveAbsFocuser
  split
  · split
    · exact h
    · exact inv_move _ h
  · exact h

lemma inv_moveRel {s : FState} (dir : FocusDirection) (t : Nat) (h : Inv s) :
    Inv (MoveRelFocuser dir t s).2 :=
  inv_moveAbs _ h

lemma inv_step {s s' : FState} (h : Inv s) (hs : Step s s') : Inv s' := by
  cases hs with
  | setSpeed v s => exact inv_sfs v h
  | moveTimed dir v d s => exact inv_moveFocuser dir v d h
  | moveAbs t s => exact inv_moveAbs t h
  | moveRel dir t s => exact inv_moveRel dir t h
  | timer c s => exact inv_timer c h
  | abort s => exact inv_abort h
  | frameworkFlags t a r sp s => exact h

lemma reachable_inv {s : FState} (hr : Reachable s) : Inv s := by
  induction hr with
  | init => exact ⟨by decide, by decide, by decide⟩
  | step _ hs ih => exact inv_step ih hs

/-- **C8**: in every reachable state the configured speed is at least 1
(so `s.speed.toNat`, the divisor of the inter-step delay computation
`1000 / s.speed.toNat` in `move`, is never zero), and a request to set
the speed to zero is rejected by `SetFocuserSpeed` — before any delay
computation can happen — leaving the speed unchanged. -/
theorem speed_never_zero (s : FState) (hr : Reachable s) :
    1 ≤ s.speed ∧ s.speed.toNat ≠ 0 ∧
    (SetFocuserSpeed 0 s).1 = false ∧
    (SetFocuserSpeed 0 s).2.speed = s.speed := by
  have h := reachable_inv hr
  have hs1 : (1 : Int) ≤ s.speed := h.1
  have h1 : (0 : Int) ≠ s.speed := by omega
  have hsfs : (SetFocuserSpeed 0 s).1 = false ∧
      (SetFocuserSpeed 0 s).2.speed = s.speed := by
    unfold SetFocuserSpeed
    rw [if_pos h1]
    split
    · exact ⟨rfl, rfl⟩
    · rw [if_pos (Or.inl (by decide : (0 : Int) < speedMin))]
      exact ⟨rfl, rfl⟩
  exact ⟨hs1, by omega, hsfs.1, hsfs.2⟩

/-- Witness for `speed_never_zero` at the initial state (speed 100). -/
theorem speed_never_zero_holds :
    1 ≤ initState.speed ∧ initState.speed.toNat ≠ 0 ∧
    (SetFocuserSpeed 0 initState).1 = false ∧
    (SetFocuserSpeed 0 initState).2.speed = initState.speed :=
  speed_never_zero initState Reachable.init

/-- **C9**: in every reachable state, `0 ≤ gTicksElapsed`, and whenever
a move session is active (`gTicksRequired > 0`) the ticks issued so far
never exceed the ticks requested. -/
theorem session_ticks_invariant (s : FState) (hr : Reachable s) :
    0 ≤ s.ticksElapsed ∧
    (0 < s.ticksRequired → s.ticksElapsed ≤ s.ticksRequired) :=
  ⟨Nat.zero_le _, (reachable_inv hr).2.2⟩

/-- Witness for `session_ticks_invariant` at the reachable state
`runSession`, which has an active session (`gTicksRequired = 5`,
`gTicksElapsed = 1`). -/
theorem session_ticks_invariant_holds :
    0 ≤ runSession.ticksElapsed ∧
    (0 < runSession.ticksRequired →
      runSession.ticksElapsed ≤ runSession.ticksRequired) :=
  session_ticks_invariant runSession
    (Reachable.step
      (Reachable.step Reachable.init (Step.setSpeed 1 initState))
      (Step.moveRel FocusDirection.Inward 5 runSlow))

/-- **C4**: `move` from an idle controller (`gTicksRequired = 0`) for a
nonzero signed tick count `rt` (magnitude `n = rt.natAbs`, which fits
`uint32_t`): with inter-step delay `delayMs = 1000 / speed`, if
`delayMs < MIN_POLL_TIMER_MS` the move runs synchronously — `n` pulses
are issued, the driver is stopped (`IN1 = IN2 = LOW`, `PWM = HIGH`) and
put back into standby (`STBY` LOW), the full signed `rt` is applied to
the position and recorded as the relative delta, and `IPS_OK` is
returned; otherwise a session is created with `gTicksRequired = n`,
`gTicksElapsed = 1` (one pulse already issued), `gPollTimerMs = delayMs`,
the timer is armed for `delayMs`, `IPS_BUSY` is returned and the
position is not yet updated. -/
theorem move_execution (s : FState) (rt : Int)
    (h0 : s.ticksRequired = 0) (_hs : 1 ≤ s.speed)
    (hn : 0 < rt.natAbs) (h32 : rt.natAbs < 4294967296) :
    (1000 / s.speed.toNat < MIN_POLL_TIMER_MS →
      (move rt s).1 = IPS.Ok ∧
      (move rt s).2.position = s.position + rt ∧
      (move rt s).2.lastRelativeDelta = rt ∧
      (move rt s).2.pulses = s.pulses + rt.natAbs ∧
      (move rt s).2.in1 = false ∧ (move rt s).2.in2 = false ∧
      (move rt s).2.pwm = true ∧ (move rt s).2.stby = false ∧
      (move rt s).2.ticksRequired = 0) ∧
    (¬ 1000 / s.speed.toNat < MIN_POLL_TIMER_MS →
      (move rt s).1 = IPS.Busy ∧
      (move rt s).2.ticksRequired = rt.natAbs ∧
      (move rt s).2.ticksElapsed = 1 ∧
      (move rt s).2.pollTimerMs = 1000 / s.speed.toNat ∧
      (move rt s).2.timerArmed = some (1000 / s.speed.toNat) ∧
      (move rt s).2.position = s.position ∧
      (move rt s).2.pulses = s.pulses + 1) := by
  have hne : rt ≠ 0 := by omega
  constructor <;> intro hd <;> by_cases hlt : rt < 0
  · have hpos : 0 < -rt := by omega
    have htn : (-rt).toNat = rt.natAbs := by omega
    simp [move, h0, hd, hlt, hpos, setDirection, setStandby, setStop,
      setVariablesAfterMove, oneTick, htn]
  · have hpos : 0 < rt := by omega
    have htn : rt.toNat = rt.natAbs := by omega
    simp [move, h0, hd, hlt, hpos, setDirection, setStandby, setStop,
      setVariablesAfterMove, oneTick, htn]
  · have htn : toU32 (-rt) = rt.natAbs := by
      unfold toU32
      omega
    simp [move, h0, hd, hlt, setDirection, setStandby, setStop,
      setVariablesAfterMove, oneTick, htn]
  · have htn : toU32 rt = rt.natAbs := by
      unfold toU32
      omega
    simp [move, h0, hd, hlt, setDirection, setStandby, setStop,
      setVariablesAfterMove, oneTick, htn]


/-- Witness for `move_execution`: an asynchronous 5-tick move at speed
100 (delay 10 ms) and a synchronous 10-tick move at speed 200
(delay 5 ms). -/
theorem move_execution_holds :
    ((move 5 initState).1 = IPS.Busy ∧
     (move 5 initState).2.ticksElapsed = 1 ∧
     (move 5 initState).2.position = initState.position) ∧
    ((move 10 runFast).1 = IPS.Ok ∧
     (move 10 runFast).2.position = runFast.position + 10) := by
  have h1 := move_execution initState 5 (by decide) (by decide) (by decide)
    (by decide)
  have h2 := move_execution runFast 10 (by decide) (by decide) (by decide)
    (by decide)
  have hb := h1.2 (by decide)
  have hsy := h2.1 (by decide)
  exact ⟨⟨hb.1, hb.2.2.1, hb.2.2.2.2.2.1⟩, hsy.1, hsy.2.1⟩

/-- Helper: `SetFocuserSpeed` with a speed that differs from the
current one and is out of range returns `false` and changes none of the
position, relative delta, standby line or configured speed (whether or
not the driver is busy). -/
lemma sfs_reject_range (v : Int) (s : FState) (hne : v ≠ s.speed)
    (hout : v < speedMin ∨ v > speedMax) :
    (SetFocuserSpeed v s).1 = false ∧
    (SetFocuserSpeed v s).2.position = s.position ∧
    (SetFocuserSpeed v s).2.lastRelativeDelta = s.lastRelativeDelta ∧
    (SetFocuserSpeed v s).2.stby = s.stby ∧
    (SetFocuserSpeed v s).2.speed = s.speed := by
  unfold SetFocuserSpeed
  rw [if_pos hne]
  split_ifs with hb
  · exact ⟨rfl, rfl, rfl, rfl, rfl⟩
  · exact ⟨rfl, rfl, rfl, rfl, rfl⟩

/-- **C5**: every rejected move request — absolute target outside
`[posMin, posMax]`, requested speed outside `[speedMin, speedMax]`
(including zero), or accepted speed with planned position out of bounds
— returns `IPS_ALERT` and leaves the absolute position, the last
relative delta and the driver standby line exactly as they were. -/
theorem rejected_request_frame (s : FState) (hr : Reachable s)
    (t : Nat) (dir : FocusDirection) (speed : Int) (duration : Nat) :
    (((t : Int) < posMin ∨ (t : Int) > posMax) →
      (MoveAbsFocuser t s).1 = IPS.Alert ∧
      (MoveAbsFocuser t s).2.position = s.position ∧
      (MoveAbsFocuser t s).2.lastRelativeDelta = s.lastRelativeDelta ∧
      (MoveAbsFocuser t s).2.stby = s.stby) ∧
    ((speed < speedMin ∨ speed > speedMax) →
      (MoveFocuser dir speed duration s).1 = IPS.Alert ∧
      (MoveFocuser dir speed duration s).2.position = s.position ∧
      (MoveFocuser dir speed duration s).2.lastRelativeDelta =
        s.lastRelativeDelta ∧
      (MoveFocuser dir speed duration s).2.stby = s.stby) ∧
    ((SetFocuserSpeed speed s).1 = true →
      (s.position +
        (if dir = FocusDirection.Outward then
            Int.tdiv (speed * (duration : Int)) 1000 -
              Int.tdiv (speed * (duration : Int)) 1000
          else Int.tdiv (speed * (duration : Int)) 1000) < posMin ∨
       s.position +
        (if dir = FocusDirection.Outward then
            Int.tdiv (speed * (duration : Int)) 1000 -
              Int.tdiv (speed * (duration : Int)) 1000
          else Int.tdiv (speed * (duration : Int)) 1000) > posMax) →
      (MoveFocuser dir speed duration s).1 = IPS.Alert ∧
      (MoveFocuser dir speed duration s).2.position = s.position ∧
      (MoveFocuser dir speed duration s).2.lastRelativeDelta =
        s.lastRelativeDelta ∧
      (MoveFocuser dir speed duration s).2.stby = s.stby) := by
  have hinv := reachable_inv hr
  refine ⟨?_, ?_, ?_⟩
  · intro hoob
    by_cases heq : (t : Int) = s.position
    · rw [moveAbs_target_eq_position s t heq]
      exact ⟨rfl, rfl, rfl, rfl⟩
    · rw [moveAbs_out_of_range s t heq hoob]
      exact ⟨rfl, rfl, rfl, rfl⟩
  · intro hout
    have hlo : (1 : Int) ≤ s.speed := hinv.1
    have hhi : s.speed ≤ (255 : Int) := hinv.2.1
    have hout1 : speed < 1 ∨ speed > 255 := hout
    have hne : speed ≠ s.speed := by omega
    obtain ⟨h1, h2, h3, h4, h5⟩ := sfs_reject_range speed s hne hout
    simp [MoveFocuser, h1, h2, h3, h4]
  · intro htrue hoob
    obtain ⟨hf1, hf2, hf3, hf4, hf5⟩ := sfs_fields speed s
    rw [← hf3] at hoob
    cases dir <;>
      simp only [MoveFocuser, htrue, reduceIte] at hoob ⊢ <;>
      rw [if_pos hoob] <;>
      exact ⟨rfl, hf3, hf4, hf5⟩


/-- Witness for `rejected_request_frame`: an absolute move to 70000 and
a timed move at speed 0 from the initial state, and a timed inward move
at speed 255 for 65535 ms from position 55000 (planned position 71711,
out of range). -/
theorem rejected_request_frame_holds :
    ((MoveAbsFocuser 70000 initState).1 = IPS.Alert ∧
     (MoveAbsFocuser 70000 initState).2.position = initState.position) ∧
    ((MoveFocuser FocusDirection.Inward 0 1000 initState).1 = IPS.Alert ∧
     (MoveFocuser FocusDirection.Inward 0 1000 initState).2.position =
       initState.position) ∧
    ((MoveFocuser FocusDirection.Inward 255 65535 runFar).1 = IPS.Alert ∧
     (MoveFocuser FocusDirection.Inward 255 65535 runFar).2.position =
       runFar.position) := by
  have hfar : Reachable runFar :=
    Reachable.step
      (Reachable.step Reachable.init (Step.setSpeed 200 initState))
      (Step.moveAbs 55000 runFast)
  refine ⟨?_, ?_, ?_⟩
  · have ha := (rejected_request_frame initState Reachable.init 70000
      FocusDirection.Inward 0 1000).1 (by decide)
    exact ⟨ha.1, ha.2.1⟩
  · have hb := (rejected_request_frame initState Reachable.init 70000
      FocusDirection.Inward 0 1000).2.1 (by decide)
    exact ⟨hb.1, hb.2.1⟩
  · have hc := (rejected_request_frame runFar hfar 70000
      FocusDirection.Inward 255 65535).2.2 (by decide) (by decide)
    exact ⟨hc.1, hc.2.1⟩

end IndiFocuser
